import Mathlib

/-!
# Verification of the bluebyte-audio-tools loudness engine

A shallow embedding, in Lean 4, of the loudness-measurement and
gain-decision core of the repository:

* `src/lufs_analyse.py`  — gain clamping, the ffmpeg `ebur128` output
  parser, the windowed loudness-max estimator, and the
  `apply_target_gain_if_requested` apply flow;
* `src/lufs_normalise.py` — the writer CLI's compliance evaluation and
  skip/abort/dry-run/overwrite/write decision flow in `main`;
* `src/bb_audio.py`      — `should_write_file`, `compute_gain_db` /
  `_clamp`, and the running-meter maxima loop of
  `measure_ebu128_ffmpeg`.

Python floats are modelled by `ℚ`, extended with explicit infinities
(`XRat`) where the code manipulates `float("-inf")` / `float("inf")`.
Text parsed by regular expressions is modelled at the level of the
extracted match lists (a regex either yields a numeric token or the
token `nan`); subprocess and file I/O deliver their results as explicit
inputs (`output_exists : Bool`, the measured loudness, the sample-peak
in dBFS).
-/

/-- Extended rationals: the Python float values `-inf` / `inf` / finite,
as they flow through the loudness code (`NaN` never reaches these code
paths: parsed tokens are filtered first). -/
inductive XRat where
  | negInf
  | posInf
  | fin (q : ℚ)
  deriving DecidableEq

/-- `x - t` for finite `t` (Python float subtraction). -/
def XRat.subQ : XRat → ℚ → XRat
  | .negInf, _ => .negInf
  | .posInf, _ => .posInf
  | .fin q, t => .fin (q - t)

/-- Unary negation (Python `-x`). -/
def XRat.neg : XRat → XRat
  | .negInf => .posInf
  | .posInf => .negInf
  | .fin q => .fin (-q)

/-- Absolute value (Python `abs`). -/
def XRat.absX : XRat → XRat
  | .negInf => .posInf
  | .posInf => .posInf
  | .fin q => .fin |q|

/-- `x <= t` for finite `t` (Python float comparison). -/
def XRat.leQ : XRat → ℚ → Bool
  | .negInf, _ => true
  | .posInf, _ => false
  | .fin q, t => decide (q ≤ t)

/-- `x > t` for finite `t` (Python float comparison). -/
def XRat.gtQ : XRat → ℚ → Bool
  | .negInf, _ => false
  | .posInf, _ => true
  | .fin q, t => decide (t < q)

/-- A token captured by the running-meter regexes: either the literal
string `nan` or a (finite) numeric literal.  The regexes in both
parsers only match `nan` or decimal numerals, so no other value
occurs. -/
inductive MeterVal where
  | nan
  | num (q : ℚ)
  deriving DecidableEq

/-- Maximum of a list of rationals, `none` on the empty list.  Used by
the specification-side descriptions of the running-max loops. -/
def listMax (l : List ℚ) : Option ℚ :=
  match l with
  | [] => none
  | a :: as => some (as.foldl max a)

/-- The target-status labels assigned by both CLIs:
`"✅ Within tolerance"`, `"⬆ Too loud"`, `"⬇ Too quiet"`,
`"⚠ Silence"`. -/
inductive TargetStatus where
  | withinTolerance
  | tooLoud
  | tooQuiet
  | silence
  deriving DecidableEq

namespace LufsAnalyse

/-- `lufs_analyse.clamp` (src/lufs_analyse.py:19-20):
`lo if x < lo else hi if x > hi else x`. -/
def clamp (x lo hi : ℚ) : ℚ :=
  if x < lo then lo else if hi < x then hi else x

/-- `lufs_analyse.compute_gain_db` (src/lufs_analyse.py:41-56):
`raw = -(current - target)` clamped to `[min_gain_db, max_gain_db]`. -/
def compute_gain_db (current_lufs target_lufs min_gain_db max_gain_db : ℚ) : ℚ :=
  clamp (-(current_lufs - target_lufs)) min_gain_db max_gain_db

/-- `lufs_analyse.compute_gain_db` evaluated at a possibly infinite
`current_lufs` (a Python float).  When `current = -inf`,
`raw = -(current - target) = +inf`, so the clamp takes its `x > hi`
branch and returns `max_gain_db`; symmetrically for `current = +inf`. -/
def compute_gain_db_x (current_lufs : XRat) (target_lufs min_gain_db max_gain_db : ℚ) : ℚ :=
  match current_lufs with
  | .fin c => compute_gain_db c target_lufs min_gain_db max_gain_db
  | .negInf => max_gain_db
  | .posInf => min_gain_db

/-- One measurement's structured metrics, `lufs_analyse.Ebur128Metrics`
(src/lufs_analyse.py:63-69). -/
structure Ebur128Metrics where
  integrated_lufs : ℚ
  loudness_range_lu : Option ℚ
  momentary_max_lufs : Option ℚ
  shortterm_max_lufs : Option ℚ
  true_peak_dbtp : Option ℚ
  deriving DecidableEq

/-- The match lists that the regular expressions of
`lufs_analyse.measure_ebu128_ffmpeg` (src/lufs_analyse.py:124-176)
extract from the ffmpeg stderr text.  Each field is the result of one
regex pass, in source order:

* `summary_I`, `summary_LRA`, `summary_TP`: `summary_value(tag)` on the
  text after the last `Summary:` marker (`none` when the anchored
  pattern does not match);
* `fallback_I`: all `I: <n> LUFS` matches over the whole text;
* `m_vals`, `s_vals`: all `M:`/`S:` running-meter tokens (numeric or
  `nan`);
* `tp_inline`: all `TP: <n> dBTP` matches over the whole text;
* `tp_block`: the value recovered by the `True peak:` block fallback
  (25-line window, `dBTP` token or bare `Peak:` line), when any. -/
structure FfmpegRaw where
  summary_I : Option ℚ
  summary_LRA : Option ℚ
  summary_TP : Option ℚ
  fallback_I : List ℚ
  m_vals : List MeterVal
  s_vals : List MeterVal
  tp_inline : List ℚ
  tp_block : Option ℚ
  deriving DecidableEq

/-- `lufs_analyse._max_above_floor` (src/lufs_analyse.py:72-82): running
maximum of the numeric tokens, skipping `nan` and any value `<= floor`. -/
def _max_above_floor (values : List MeterVal) (floor : ℚ) : Option ℚ :=
  values.foldl
    (fun best v =>
      match v with
      | .nan => best
      | .num fv =>
        if fv ≤ floor then best
        else
          match best with
          | none => some fv
          | some b => if b < fv then some fv else best)
    none

/-- Specification-side restatement of the `-70` floor rule: the maximum
of the numeric running-meter values strictly above `floor`, absent when
no such value exists. -/
def maxAboveFloorSpec (values : List MeterVal) (floor : ℚ) : Option ℚ :=
  listMax (values.filterMap fun v =>
    match v with
    | .nan => none
    | .num fv => if floor < fv then some fv else none)

/-- The parsing stage of `lufs_analyse.measure_ebu128_ffmpeg`
(src/lufs_analyse.py:124-187), as a function of the extracted match
lists: integrated comes from the Summary block, falling back to the
last `I:` running match; `M`/`S` maxima go through `_max_above_floor`
with the `-70` floor; true peak tries the Summary token, then the last
inline `TP:` match, then the `True peak:` block; the parse fails only
when no integrated value was recovered. -/
def measure_ebu128_ffmpeg (raw : FfmpegRaw) : Except String Ebur128Metrics :=
  let integrated : Option ℚ :=
    match raw.summary_I with
    | some v => some v
    | none => raw.fallback_I.getLast?
  let m_max := _max_above_floor raw.m_vals (-70)
  let s_max := _max_above_floor raw.s_vals (-70)
  let tp : Option ℚ :=
    match raw.summary_TP with
    | some v => some v
    | none =>
      match raw.tp_inline.getLast? with
      | some v => some v
      | none => raw.tp_block
  match integrated with
  | none => Except.error "Could not parse final integrated LUFS from ffmpeg output."
  | some i =>
    Except.ok
      { integrated_lufs := i
        loudness_range_lu := raw.summary_LRA
        momentary_max_lufs := m_max
        shortterm_max_lufs := s_max
        true_peak_dbtp := tp }

/-- Python `int(round(x))`: round half to even (banker's rounding), as
used on `window_sec * sr` / `step_sec * sr`. -/
def pyRound (q : ℚ) : ℤ :=
  let f : ℤ := ⌊q⌋
  let r : ℚ := q - f
  if r < 1 / 2 then f
  else if 1 / 2 < r then f + 1
  else if f % 2 = 0 then f else f + 1

/-- Python `range(0, stop, step)` for `step > 0`: the multiples of
`step` below `stop`. -/
def pyRange (stop step : ℕ) : List ℕ :=
  (List.range ((stop + step - 1) / step)).map (fun k => k * step)

/-- `lufs_analyse.windowed_lufs_max_python` (src/lufs_analyse.py:202-243).
The embedded integrated-loudness primitive (`pyloudnorm`'s
`meter.integrated_loudness` on one window) is an external collaborator,
passed as `meter`; it returns `none` when the call raises or produces a
non-finite value — both are skipped identically by the source loop. -/
def windowed_lufs_max_python (meter : List ℚ → Option ℚ) (audio : List ℚ)
    (sr : ℤ) (window_sec step_sec : ℚ) : Option ℚ :=
  if sr ≤ 0 then none
  else
    let win_n : ℤ := pyRound (window_sec * (sr : ℚ))
    let step_n : ℤ := pyRound (step_sec * (sr : ℚ))
    if win_n ≤ 0 ∨ step_n ≤ 0 then none
    else if (audio.length : ℤ) < win_n then none
    else
      (pyRange (audio.length - win_n.toNat + 1) step_n.toNat).foldl
        (fun best start =>
          match meter ((audio.drop start).take win_n.toNat) with
          | none => best
          | some v =>
            match best with
            | none => some v
            | some b => if b < v then some v else best)
        none

/-- Specification-side restatement of the windowed-max contract
(spec §4.2): slide a window of `round(window_sec * sr)` samples in
steps of `round(step_sec * sr)` samples, collect the finite per-window
loudness values, and return their maximum; unavailable (`none`) when
the sample rate is non-positive, a length rounds to a non-positive
sample count, or the buffer is shorter than one window. -/
def windowedMaxSpec (meter : List ℚ → Option ℚ) (audio : List ℚ)
    (sr : ℤ) (window_sec step_sec : ℚ) : Option ℚ :=
  if sr ≤ 0 then none
  else
    let win_n : ℤ := pyRound (window_sec * (sr : ℚ))
    let step_n : ℤ := pyRound (step_sec * (sr : ℚ))
    if win_n ≤ 0 ∨ step_n ≤ 0 then none
    else if (audio.length : ℤ) < win_n then none
    else
      listMax ((pyRange (audio.length - win_n.toNat + 1) step_n.toNat).filterMap
        (fun start => meter ((audio.drop start).take win_n.toNat)))

end LufsAnalyse

namespace BbAudio

/-- `bb_audio._clamp` (src/bb_audio.py:133-134): `max(lo, min(hi, x))`. -/
def _clamp (x lo hi : ℚ) : ℚ :=
  max lo (min hi x)

/-- `bb_audio.compute_gain_db` (src/bb_audio.py:147-155):
`gain = target_lufs - measured_lufs`, clamped. -/
def compute_gain_db (measured_lufs target_lufs min_gain_db max_gain_db : ℚ) : ℚ :=
  _clamp (target_lufs - measured_lufs) min_gain_db max_gain_db

/-- `bb_audio.should_write_file` (src/bb_audio.py:59-79).  The
`os.path.exists` I/O fact is supplied as the boolean `output_exists`. -/
def should_write_file (output_exists overwrite dry_run : Bool) : Bool × String :=
  if !output_exists then (true, "new")
  else if overwrite then (true, "overwrite")
  else if dry_run then (false, "dry_run_skip")
  else (false, "exists")

/-- The running-meter maxima loop of `bb_audio.measure_ebu128_ffmpeg`
(src/bb_audio.py:269-287): for each matched line the pair of `M`/`S`
tokens is parsed; each finite value updates its running maximum.  Note
there is no `-70` floor here, unlike `lufs_analyse._max_above_floor`. -/
def meter_maxima (pairs : List (MeterVal × MeterVal)) : Option ℚ × Option ℚ :=
  pairs.foldl
    (fun best p =>
      let m_best :=
        match p.1 with
        | .nan => best.1
        | .num x =>
          match best.1 with
          | none => some x
          | some b => if b < x then some x else best.1
      let s_best :=
        match p.2 with
        | .nan => best.2
        | .num x =>
          match best.2 with
          | none => some x
          | some b => if b < x then some x else best.2
      (m_best, s_best))
    (none, none)

end BbAudio

namespace LufsNormalise

/-- `lufs_normalise.clamp` (src/lufs_normalise.py:43-44), textually the
same branching clamp as `lufs_analyse.clamp`. -/
def clamp (x lo hi : ℚ) : ℚ :=
  if x < lo then lo else if hi < x then hi else x

/-- `lufs_normalise.compute_gain_db` (src/lufs_normalise.py:267-269). -/
def compute_gain_db (current_lufs target_lufs min_gain_db max_gain_db : ℚ) : ℚ :=
  clamp (-(current_lufs - target_lufs)) min_gain_db max_gain_db

/-- The compliance block computed identically by
`lufs_normalise.main` (src/lufs_normalise.py:430-442) and
`lufs_analyse.apply_target_gain_if_requested`
(src/lufs_analyse.py:512-528) for a finite measurement. -/
structure ComplianceOutcome where
  delta_lu : ℚ
  within : Bool
  suggested_gain_db : ℚ
  status : TargetStatus
  deriving DecidableEq

/-- `delta_lu = measured - target`; `within = |delta_lu| <= tol`;
`suggested_gain_db = -delta_lu`; status is within-tolerance, else
too-loud when `delta_lu > 0`, else too-quiet. -/
def evaluate_target (measured_lufs target_lufs tolerance : ℚ) : ComplianceOutcome :=
  let delta_lu := measured_lufs - target_lufs
  { delta_lu := delta_lu
    within := decide (|delta_lu| ≤ tolerance)
    suggested_gain_db := -delta_lu
    status :=
      if |delta_lu| ≤ tolerance then .withinTolerance
      else if 0 < delta_lu then .tooLoud
      else .tooQuiet }

/-- The terminal decision of one `lufs_normalise` run, in the spec's
§4.5 vocabulary.  Code correspondence for `main`
(src/lufs_normalise.py:372-537): `skip "silence"` = the silence early
return; `skip "within_tolerance"` = the compliant-unforced return;
`abort "predicted_clip"` = the clip-guard return with exit code 1;
`dryRunPlanned` = the `--dry_run` return; `skip "output_exists"` = the
overwrite-guard return; `write` = the `sf.write` path. -/
inductive ApplyDecision where
  | skip (reason : String)
  | abort (reason : String)
  | dryRunPlanned
  | write
  deriving DecidableEq

/-- The policy flags and target parameters of `lufs_normalise`
(`argparse` fields used by the decision flow of `main`). -/
structure Args where
  target_lufs : ℚ
  tolerance : ℚ
  min_gain_db : ℚ
  max_gain_db : ℚ
  true_peak_limit : ℚ
  force : Bool
  allow_clip : Bool
  overwrite : Bool
  dry_run : Bool
  deriving DecidableEq

/-- Observable outcome of one `lufs_normalise.main` run (the fields of
`NormaliseResult` that the decision flow determines, plus the decision,
whether `sf.write` ran, and the process exit code). -/
structure Run where
  integrated_lufs : XRat
  delta_lu : Option ℚ
  status : TargetStatus
  suggested_gain_db : Option ℚ
  applied_gain_db : Option ℚ
  predicted_peak_dbfs : Option ℚ
  predicted_true_peak_dbtp : Option ℚ
  true_peak_warn : Bool
  decision : ApplyDecision
  did_write : Bool
  rc : ℕ
  deriving DecidableEq

/-- The measurement-to-decision flow of `lufs_normalise.main`
(src/lufs_normalise.py:389-537), with the I/O facts as inputs:

* `peak_dbfs = db_from_lin(peak_lin)`, which is `none` (Python `-inf`)
  exactly when `peak_lin == 0.0`, the source's silence test;
* `ffmpeg_integrated_lufs`: the measurement (`measure_lufs`); the
  ffmpeg parse regexes only produce finite numerals, hence `ℚ`;
* `true_peak_dbtp`: the parsed true peak, when present;
* `output_exists`: `os.path.exists(out_path)`.

A write that raises inside `sf.write` is out of scope (the render
collaborator); `write` means the flow reached the render call. -/
def run (a : Args) (peak_dbfs : Option ℚ) (ffmpeg_integrated_lufs : ℚ)
    (true_peak_dbtp : Option ℚ) (output_exists : Bool) : Run :=
  match peak_dbfs with
  | none =>
    { integrated_lufs := .negInf
      delta_lu := none
      status := .silence
      suggested_gain_db := none
      applied_gain_db := none
      predicted_peak_dbfs := none
      predicted_true_peak_dbtp := none
      true_peak_warn := false
      decision := .skip "silence"
      did_write := false
      rc := 0 }
  | some pk =>
    let c := evaluate_target ffmpeg_integrated_lufs a.target_lufs a.tolerance
    if c.within ∧ ¬a.force then
      { integrated_lufs := .fin ffmpeg_integrated_lufs
        delta_lu := some c.delta_lu
        status := c.status
        suggested_gain_db := some c.suggested_gain_db
        applied_gain_db := none
        predicted_peak_dbfs := none
        predicted_true_peak_dbtp := none
        true_peak_warn := false
        decision := .skip "within_tolerance"
        did_write := false
        rc := 0 }
    else
      let gain_db := compute_gain_db ffmpeg_integrated_lufs a.target_lufs
        a.min_gain_db a.max_gain_db
      let pred_peak_dbfs := pk + gain_db
      let pred_tp : Option ℚ :=
        match true_peak_dbtp with
        | some tpv => some (tpv + gain_db)
        | none => none
      let tp_warn : Bool :=
        match true_peak_dbtp with
        | some tpv => decide (a.true_peak_limit < tpv + gain_db)
        | none => false
      if 0 < pred_peak_dbfs ∧ ¬a.allow_clip then
        { integrated_lufs := .fin ffmpeg_integrated_lufs
          delta_lu := some c.delta_lu
          status := c.status
          suggested_gain_db := some c.suggested_gain_db
          applied_gain_db := some gain_db
          predicted_peak_dbfs := some pred_peak_dbfs
          predicted_true_peak_dbtp := pred_tp
          true_peak_warn := tp_warn
          decision := .abort "predicted_clip"
          did_write := false
          rc := 1 }
      else if a.dry_run then
        { integrated_lufs := .fin ffmpeg_integrated_lufs
          delta_lu := some c.delta_lu
          status := c.status
          suggested_gain_db := some c.suggested_gain_db
          applied_gain_db := some gain_db
          predicted_peak_dbfs := some pred_peak_dbfs
          predicted_true_peak_dbtp := pred_tp
          true_peak_warn := tp_warn
          decision := .dryRunPlanned
          did_write := false
          rc := 0 }
      else if output_exists ∧ ¬a.overwrite then
        { integrated_lufs := .fin ffmpeg_integrated_lufs
          delta_lu := some c.delta_lu
          status := c.status
          suggested_gain_db := some c.suggested_gain_db
          applied_gain_db := some gain_db
          predicted_peak_dbfs := some pred_peak_dbfs
          predicted_true_peak_dbtp := pred_tp
          true_peak_warn := tp_warn
          decision := .skip "output_exists"
          did_write := false
          rc := 0 }
      else
        { integrated_lufs := .fin ffmpeg_integrated_lufs
          delta_lu := some c.delta_lu
          status := c.status
          suggested_gain_db := some c.suggested_gain_db
          applied_gain_db := some gain_db
          predicted_peak_dbfs := some pred_peak_dbfs
          predicted_true_peak_dbtp := pred_tp
          true_peak_warn := tp_warn
          decision := .write
          did_write := true
          rc := 0 }

end LufsNormalise

namespace LufsAnalyse

/-- The `argparse` flags consumed by
`lufs_analyse.apply_target_gain_if_requested`, with `--target_lufs`
present (the function returns immediately otherwise).  `applyFlag` is
the `--apply` flag. -/
structure ApplyArgs where
  target_lufs : ℚ
  tolerance : ℚ
  min_gain_db : ℚ
  max_gain_db : ℚ
  true_peak_limit : ℚ
  applyFlag : Bool
  force_apply : Bool
  allow_clip : Bool
  dry_run : Bool
  deriving DecidableEq

/-- Observable outcome of `lufs_analyse.apply_target_gain_if_requested`:
the `AnalysisResult` fields the function writes, whether `sf.write` ran
(`wrote_file`), whether `wrote_path` was set, and the returned exit
code. `predicted_peak_dbfs = none` models the `-inf` assigned when the
input sample peak is non-finite. -/
structure ApplyRun where
  target_delta_lu : XRat
  target_within : Bool
  target_status : TargetStatus
  suggested_gain_db : XRat
  apply_requested : Bool
  apply_skipped : Bool
  apply_gain_db : Option ℚ
  predicted_peak_dbfs : Option ℚ
  predicted_true_peak_dbtp : Option ℚ
  predicted_true_peak_warn : Bool
  wrote_path_set : Bool
  wrote_file : Bool
  rc : ℕ
  deriving DecidableEq

/-- `lufs_analyse.apply_target_gain_if_requested`
(src/lufs_analyse.py:496-596).  Inputs are the analysis state the
function reads: `integrated_lufs` (a Python float, `-inf` for a
measurement gated to silence), `peak_dbfs` (`none` = non-finite), and
the optional parsed true peak.  Note the function never tests
`integrated_lufs` for `-inf`: `within` is `abs(-inf) <= tol = False`,
the status comparison `-inf > 0` is `False` ("Too quiet"), and
`compute_gain_db(-inf, ...)` clamps `+inf` down to `max_gain_db`. -/
def apply_target_gain_if_requested (a : ApplyArgs) (integrated_lufs : XRat)
    (peak_dbfs : Option ℚ) (true_peak_dbtp : Option ℚ) : ApplyRun :=
  let delta_lu := integrated_lufs.subQ a.target_lufs
  let within := delta_lu.absX.leQ a.tolerance
  let suggested := delta_lu.neg
  let status : TargetStatus :=
    if within then .withinTolerance
    else if delta_lu.gtQ 0 then .tooLoud
    else .tooQuiet
  if ¬a.applyFlag then
    { target_delta_lu := delta_lu
      target_within := within
      target_status := status
      suggested_gain_db := suggested
      apply_requested := false
      apply_skipped := false
      apply_gain_db := none
      predicted_peak_dbfs := none
      predicted_true_peak_dbtp := none
      predicted_true_peak_warn := false
      wrote_path_set := false
      wrote_file := false
      rc := 0 }
  else if within ∧ ¬a.force_apply then
    { target_delta_lu := delta_lu
      target_within := within
      target_status := status
      suggested_gain_db := suggested
      apply_requested := true
      apply_skipped := true
      apply_gain_db := none
      predicted_peak_dbfs := none
      predicted_true_peak_dbtp := none
      predicted_true_peak_warn := false
      wrote_path_set := false
      wrote_file := false
      rc := 0 }
  else
    let gain_db := compute_gain_db_x integrated_lufs a.target_lufs
      a.min_gain_db a.max_gain_db
    let peak_out : Option ℚ :=
      match peak_dbfs with
      | some p => some (p + gain_db)
      | none => none
    let pred_tp : Option ℚ :=
      match true_peak_dbtp with
      | some tpv => some (tpv + gain_db)
      | none => none
    let tp_warn : Bool :=
      match true_peak_dbtp with
      | some tpv => decide (a.true_peak_limit < tpv + gain_db)
      | none => false
    let clip_risk : Bool :=
      match peak_out with
      | some p => decide (0 < p)
      | none => false
    if clip_risk ∧ ¬a.allow_clip then
      { target_delta_lu := delta_lu
        target_within := within
        target_status := status
        suggested_gain_db := suggested
        apply_requested := true
        apply_skipped := false
        apply_gain_db := some gain_db
        predicted_peak_dbfs := peak_out
        predicted_true_peak_dbtp := pred_tp
        predicted_true_peak_warn := tp_warn
        wrote_path_set := false
        wrote_file := false
        rc := 1 }
    else if a.dry_run then
      { target_delta_lu := delta_lu
        target_within := within
        target_status := status
        suggested_gain_db := suggested
        apply_requested := true
        apply_skipped := false
        apply_gain_db := some gain_db
        predicted_peak_dbfs := peak_out
        predicted_true_peak_dbtp := pred_tp
        predicted_true_peak_warn := tp_warn
        wrote_path_set := true
        wrote_file := false
        rc := 0 }
    else
      { target_delta_lu := delta_lu
        target_within := within
        target_status := status
        suggested_gain_db := suggested
        apply_requested := true
        apply_skipped := false
        apply_gain_db := some gain_db
        predicted_peak_dbfs := peak_out
        predicted_true_peak_dbtp := pred_tp
        predicted_true_peak_warn := tp_warn
        wrote_path_set := true
        wrote_file := true
        rc := 0 }

end LufsAnalyse

/-! ## Helper lemmas -/

/-- The running-max loop body shared (up to the per-loop filter `f`) by
the Python loops `if best is None or v > best: best = v`. -/
def foldBestStep {α : Type} (f : α → Option ℚ) : Option ℚ → α → Option ℚ :=
  fun best a =>
    match f a with
    | none => best
    | some v =>
      match best with
      | none => some v
      | some b => if b < v then some v else best

lemma foldBest_some {α : Type} (f : α → Option ℚ) :
    ∀ (l : List α) (b : ℚ),
      l.foldl (foldBestStep f) (some b) = some ((l.filterMap f).foldl max b) := by
  intro l
  induction l with
  | nil => intro b; rfl
  | cons a l ih =>
    intro b
    cases h : f a with
    | none =>
      simp only [List.foldl_cons, List.filterMap_cons, h, foldBestStep]
      exact ih b
    | some v =>
      simp only [List.foldl_cons, List.filterMap_cons, h, foldBestStep]
      by_cases hb : b < v
      · rw [if_pos hb, ih v, max_eq_right hb.le]
      · rw [if_neg hb, ih b, max_eq_left (not_lt.mp hb)]

lemma foldBest_none {α : Type} (f : α → Option ℚ) :
    ∀ l : List α, l.foldl (foldBestStep f) none = listMax (l.filterMap f) := by
  intro l
  induction l with
  | nil => rfl
  | cons a l ih =>
    cases h : f a with
    | none =>
      simp only [List.foldl_cons, List.filterMap_cons, h, foldBestStep]
      exact ih
    | some v =>
      simp only [List.foldl_cons, List.filterMap_cons, h, foldBestStep, listMax]
      exact foldBest_some f l v

/-- `_max_above_floor` computes exactly the specification-side maximum
over the values strictly above the floor. -/
lemma max_above_floor_eq (values : List MeterVal) (floor : ℚ) :
    LufsAnalyse._max_above_floor values floor
      = LufsAnalyse.maxAboveFloorSpec values floor := by
  have hstep :
      (fun (best : Option ℚ) (v : MeterVal) =>
        match v with
        | .nan => best
        | .num fv =>
          if fv ≤ floor then best
          else
            match best with
            | none => some fv
            | some b => if b < fv then some fv else best)
      = foldBestStep (fun v : MeterVal =>
          match v with
          | .nan => none
          | .num fv => if floor < fv then some fv else none) := by
    funext best v
    cases v with
    | nan => rfl
    | num fv =>
      by_cases h : fv ≤ floor
      · simp [foldBestStep, h, not_lt.mpr h]
      · simp [foldBestStep, h, lt_of_not_le h]
  unfold LufsAnalyse._max_above_floor LufsAnalyse.maxAboveFloorSpec
  rw [hstep]
  exact foldBest_none _ values

/-- The branching clamp agrees with `max lo (min hi x)` when the bounds
are ordered. -/
lemma clamp_eq_max_min (x lo hi : ℚ) (h : lo ≤ hi) :
    (if x < lo then lo else if hi < x then hi else x) = max lo (min hi x) := by
  rcases lt_or_le x lo with h1 | h1
  · rw [if_pos h1, min_eq_right (le_of_lt (lt_of_lt_of_le h1 h)),
      max_eq_left (le_of_lt h1)]
  · rw [if_neg (not_lt.mpr h1)]
    rcases lt_or_le hi x with h2 | h2
    · rw [if_pos h2, min_eq_left (le_of_lt h2), max_eq_right h]
    · rw [if_neg (not_lt.mpr h2), min_eq_right h2, max_eq_right h1]

/-! ## Claim theorems -/

/-- C9: `should_write_file` returns `(true, "new")` when the output does
not exist; when it exists it returns `(true, "overwrite")` whenever
`overwrite` is set — even under `dry_run`, since the overwrite check
precedes the dry-run check — else `(false, "dry_run_skip")` under
`dry_run`, else `(false, "exists")`; the boolean is true exactly when
the output does not exist or `overwrite` is set. -/
theorem should_write_file_cases :
    (∀ ow dr, BbAudio.should_write_file false ow dr = (true, "new")) ∧
    (∀ dr, BbAudio.should_write_file true true dr = (true, "overwrite")) ∧
    BbAudio.should_write_file true false true = (false, "dry_run_skip") ∧
    BbAudio.should_write_file true false false = (false, "exists") ∧
    (∀ ex ow dr, (BbAudio.should_write_file ex ow dr).1 = (!ex || ow)) := by
  decide

/-- C10: with ordered bounds, the three gain computations
(`lufs_analyse.compute_gain_db`, `lufs_normalise.compute_gain_db`,
`bb_audio.compute_gain_db`) agree, and all equal
`clamp(target - measured)` in its `max lo (min hi x)` form. -/
theorem compute_gain_db_agree (m t lo hi : ℚ) (h : lo ≤ hi) :
    LufsAnalyse.compute_gain_db m t lo hi = BbAudio.compute_gain_db m t lo hi ∧
    LufsNormalise.compute_gain_db m t lo hi = BbAudio.compute_gain_db m t lo hi ∧
    BbAudio.compute_gain_db m t lo hi = max lo (min hi (t - m)) := by
  have hneg : -(m - t) = t - m := by ring
  refine ⟨?_, ?_, rfl⟩
  · unfold LufsAnalyse.compute_gain_db LufsAnalyse.clamp
      BbAudio.compute_gain_db BbAudio._clamp
    rw [hneg]
    exact clamp_eq_max_min (t - m) lo hi h
  · unfold LufsNormalise.compute_gain_db LufsNormalise.clamp
      BbAudio.compute_gain_db BbAudio._clamp
    rw [hneg]
    exact clamp_eq_max_min (t - m) lo hi h

/-- Witness for C10 at the spec's own scenario
(`measured=-30, target=-14, min=-24, max=12`): all three give `+12`. -/
theorem compute_gain_db_agree_witness :
    LufsAnalyse.compute_gain_db (-30) (-14) (-24) 12
        = BbAudio.compute_gain_db (-30) (-14) (-24) 12 ∧
    LufsNormalise.compute_gain_db (-30) (-14) (-24) 12
        = BbAudio.compute_gain_db (-30) (-14) (-24) 12 ∧
    BbAudio.compute_gain_db (-30) (-14) (-24) 12 = 12 := by
  have h := compute_gain_db_agree (-30) (-14) (-24) 12 (by norm_num)
  exact ⟨h.1, h.2.1, by norm_num [BbAudio.compute_gain_db, BbAudio._clamp]⟩

/-- C6 counterexample: with crossed bounds `min_gain_db = 5 >
max_gain_db = 1` the applied gain (`5`) does not lie within
`[min_gain_db, max_gain_db]`, refuting the claim's "for every
min_gain_db and max_gain_db ... always lies within" reading. -/
theorem gain_clamp_bounds_cex :
    LufsAnalyse.compute_gain_db (-14) (-14) 5 1 = 5 ∧
    ¬(LufsAnalyse.compute_gain_db (-14) (-14) 5 1 ≤ 1) := by
  norm_num [LufsAnalyse.compute_gain_db, LufsAnalyse.clamp]

/-- C6 (amended): the applied gain always equals
`clamp(-(measured - target), min_gain_db, max_gain_db)`, and provided
`min_gain_db ≤ max_gain_db` it lies within `[min_gain_db, max_gain_db]`
however extreme the delta, with clamping winning over the exact target
(raw gain below the floor yields the floor, above the ceiling yields
the ceiling). -/
theorem gain_clamp_bounded (m t lo hi : ℚ) :
    LufsAnalyse.compute_gain_db m t lo hi = LufsAnalyse.clamp (-(m - t)) lo hi ∧
    (lo ≤ hi →
      lo ≤ LufsAnalyse.compute_gain_db m t lo hi ∧
      LufsAnalyse.compute_gain_db m t lo hi ≤ hi ∧
      (-(m - t) < lo → LufsAnalyse.compute_gain_db m t lo hi = lo) ∧
      (hi < -(m - t) → LufsAnalyse.compute_gain_db m t lo hi = hi)) := by
  refine ⟨rfl, fun h => ?_⟩
  unfold LufsAnalyse.compute_gain_db LufsAnalyse.clamp
  refine ⟨?_, ?_, ?_, ?_⟩
  · split_ifs with h1 h2 <;> linarith
  · split_ifs with h1 h2 <;> linarith
  · intro hr
    rw [if_pos hr]
  · intro hr
    rw [if_neg (not_lt.mpr (le_of_lt (lt_of_le_of_lt h hr))), if_pos hr]

/-- Witness for C6 (amended) at the spec scenario `measured=-30,
target=-14, min=-24, max=12`: raw gain `16` is clamped to the ceiling
`12`. -/
theorem gain_clamp_bounded_witness :
    LufsAnalyse.compute_gain_db (-30) (-14) (-24) 12 = 12 :=
  ((gain_clamp_bounded (-30) (-14) (-24) 12).2 (by norm_num)).2.2.2 (by norm_num)

/-- C5 counterexample: with a negative tolerance (`tolerance_lu = -1`,
`measured = target = -14`) the delta `0` exceeds the tolerance, so the
claim's "too-loud exactly when delta_lu > tolerance_lu" demands a
too-loud verdict, but the code's verdict is too-quiet. -/
theorem compliance_eval_cex :
    (-1 : ℚ) < (LufsNormalise.evaluate_target (-14) (-14) (-1)).delta_lu ∧
    (LufsNormalise.evaluate_target (-14) (-14) (-1)).status ≠ TargetStatus.tooLoud := by
  norm_num [LufsNormalise.evaluate_target, abs_le]
  decide

/-- C5 (amended): `delta_lu = measured - target`,
`within = (|delta_lu| ≤ tolerance)` with inclusive boundary,
`suggested_gain_db = -delta_lu`, for every tolerance; and for every
non-negative tolerance the verdict is too-loud exactly when
`delta_lu > tolerance` and too-quiet exactly when
`delta_lu < -tolerance`. -/
theorem compliance_eval_fields (m t tol : ℚ) :
    (LufsNormalise.evaluate_target m t tol).delta_lu = m - t ∧
    ((LufsNormalise.evaluate_target m t tol).within = true ↔ |m - t| ≤ tol) ∧
    (LufsNormalise.evaluate_target m t tol).suggested_gain_db = -(m - t) ∧
    (0 ≤ tol →
      ((LufsNormalise.evaluate_target m t tol).status = TargetStatus.tooLoud
        ↔ tol < m - t) ∧
      ((LufsNormalise.evaluate_target m t tol).status = TargetStatus.tooQuiet
        ↔ m - t < -tol)) := by
  refine ⟨rfl, by simp [LufsNormalise.evaluate_target], rfl, fun htol => ?_⟩
  unfold LufsNormalise.evaluate_target
  dsimp only
  by_cases h1 : |m - t| ≤ tol
  · rw [if_pos h1]
    have hb := abs_le.mp h1
    exact ⟨⟨fun h => TargetStatus.noConfusion h,
            fun h => absurd h (not_lt.mpr hb.2)⟩,
           ⟨fun h => TargetStatus.noConfusion h,
            fun h => absurd h (not_lt.mpr hb.1)⟩⟩
  · rw [if_neg h1]
    have h2 : tol < |m - t| := lt_of_not_le h1
    by_cases h3 : 0 < m - t
    · rw [if_pos h3]
      have habs : |m - t| = m - t := abs_of_pos h3
      rw [habs] at h2
      exact ⟨⟨fun _ => h2, fun _ => rfl⟩,
             ⟨fun h => TargetStatus.noConfusion h,
              fun h => absurd h (not_lt.mpr (by linarith))⟩⟩
    · rw [if_neg h3]
      have hle : m - t ≤ 0 := not_lt.mp h3
      have habs : |m - t| = -(m - t) := abs_of_nonpos hle
      rw [habs] at h2
      exact ⟨⟨fun h => TargetStatus.noConfusion h,
              fun h => absurd h (not_lt.mpr (by linarith))⟩,
             ⟨fun _ => by linarith, fun _ => rfl⟩⟩

/-- Witness for C5 (amended) at the spec scenario `measured=-12,
target=-14, tolerance=0.5`: delta `+2` exceeds the tolerance, verdict
too-loud. -/
theorem compliance_eval_fields_witness :
    (LufsNormalise.evaluate_target (-12) (-14) (1/2)).status = TargetStatus.tooLoud :=
  ((compliance_eval_fields (-12) (-14) (1/2)).2.2.2 (by norm_num)).1.mpr (by norm_num)

/-- C8: the windowed loudness-max estimator agrees, on every meter,
buffer, sample rate, window and step, with the specification-side
description: unavailable when the sample rate is non-positive, a
length rounds to a non-positive sample count, or the buffer is shorter
than one window; otherwise the maximum of the finite per-window
values over windows of `round(window_sec*sr)` samples advanced by
`round(step_sec*sr)` samples. -/
theorem windowed_max_refines_spec (meter : List ℚ → Option ℚ) (audio : List ℚ)
    (sr : ℤ) (window_sec step_sec : ℚ) :
    LufsAnalyse.windowed_lufs_max_python meter audio sr window_sec step_sec
      = LufsAnalyse.windowedMaxSpec meter audio sr window_sec step_sec := by
  unfold LufsAnalyse.windowed_lufs_max_python LufsAnalyse.windowedMaxSpec
  dsimp only
  split_ifs with h1 h2 h3
  · rfl
  · rfl
  · rfl
  · exact foldBest_none
      (fun start => meter ((audio.drop start).take
        (LufsAnalyse.pyRound (window_sec * (sr : ℚ))).toNat))
      (LufsAnalyse.pyRange
        (audio.length - (LufsAnalyse.pyRound (window_sec * (sr : ℚ))).toNat + 1)
        (LufsAnalyse.pyRound (step_sec * (sr : ℚ))).toNat)

/-- C7: the ffmpeg-output parse fails exactly when no integrated value
is recoverable from the Summary block or the running-meter fallback;
and stripping every optional metric (LRA, true peak in all three
forms, the M/S running values) never turns a success into a failure
nor changes the integrated value. -/
theorem parse_fails_iff_no_integrated (raw : LufsAnalyse.FfmpegRaw) :
    ((LufsAnalyse.measure_ebu128_ffmpeg raw).toOption = none
      ↔ raw.summary_I = none ∧ raw.fallback_I = []) ∧
    ((LufsAnalyse.measure_ebu128_ffmpeg
        { raw with
          summary_LRA := none
          summary_TP := none
          m_vals := []
          s_vals := []
          tp_inline := []
          tp_block := none }).toOption.map (fun m => m.integrated_lufs)
      = (LufsAnalyse.measure_ebu128_ffmpeg raw).toOption.map
          (fun m => m.integrated_lufs)) := by
  unfold LufsAnalyse.measure_ebu128_ffmpeg
  cases hI : raw.summary_I with
  | some v => simp [Except.toOption]
  | none =>
    cases hF : raw.fallback_I with
    | nil => simp [Except.toOption, List.getLast?]
    | cons a as => simp [Except.toOption, List.getLast?]

/-- C2 counterexample: in `bb_audio.measure_ebu128_ffmpeg` a running
`M` value of `-80` (at or below the `-70` floor) does contribute: it
becomes the reported momentary maximum, where the floor-filtered
maximum is absent. -/
theorem meter_floor_cex :
    (BbAudio.meter_maxima [(MeterVal.num (-80), MeterVal.nan)]).1 = some (-80) ∧
    LufsAnalyse._max_above_floor [MeterVal.num (-80)] (-70) = none := by
  constructor
  · rfl
  · norm_num [LufsAnalyse._max_above_floor]

/-- C2 (amended): in `lufs_analyse`'s parser every successfully parsed
result reports `momentary_max`/`short_term_max` as the maximum of only
the running-meter values strictly above the `-70` floor (absent when
none); `bb_audio`'s parser excludes only non-finite values, so values
at or below `-70` do contribute there. -/
theorem parser_meter_maxima_floor (raw : LufsAnalyse.FfmpegRaw)
    (i : LufsAnalyse.Ebur128Metrics)
    (h : LufsAnalyse.measure_ebu128_ffmpeg raw = Except.ok i) :
    i.momentary_max_lufs = LufsAnalyse.maxAboveFloorSpec raw.m_vals (-70) ∧
    i.shortterm_max_lufs = LufsAnalyse.maxAboveFloorSpec raw.s_vals (-70) := by
  unfold LufsAnalyse.measure_ebu128_ffmpeg at h
  dsimp only at h
  split at h
  · exact Except.noConfusion h
  · injection h with h2
    subst h2
    exact ⟨max_above_floor_eq _ _, max_above_floor_eq _ _⟩

/-- Concrete ffmpeg extraction for the C2 witness: integrated in the
Summary block; running `M` values `-80`, `-9.8` and `nan`; one running
`S` value exactly at the `-70` floor. -/
def rawC2 : LufsAnalyse.FfmpegRaw :=
  { summary_I := some (-14)
    summary_LRA := none
    summary_TP := none
    fallback_I := []
    m_vals := [MeterVal.num (-80), MeterVal.num (-98/10), MeterVal.nan]
    s_vals := [MeterVal.num (-70)]
    tp_inline := []
    tp_block := none }

/-- Metrics `rawC2` parses to: the `-80` and the `-70` are floored away. -/
def metricsC2 : LufsAnalyse.Ebur128Metrics :=
  { integrated_lufs := -14
    loudness_range_lu := none
    momentary_max_lufs := some (-98/10)
    shortterm_max_lufs := none
    true_peak_dbtp := none }

/-- Witness for C2 (amended): the parse of `rawC2` succeeds, its
momentary maximum is `-9.8` (the `-80` was excluded) and its
short-term maximum is absent (`-70` itself is excluded). -/
theorem parser_meter_maxima_floor_witness :
    LufsAnalyse.measure_ebu128_ffmpeg rawC2 = Except.ok metricsC2 ∧
    (metricsC2.momentary_max_lufs
        = LufsAnalyse.maxAboveFloorSpec rawC2.m_vals (-70) ∧
      metricsC2.shortterm_max_lufs
        = LufsAnalyse.maxAboveFloorSpec rawC2.s_vals (-70)) := by
  have h : LufsAnalyse.measure_ebu128_ffmpeg rawC2 = Except.ok metricsC2 := by
    norm_num [LufsAnalyse.measure_ebu128_ffmpeg, rawC2, metricsC2,
      LufsAnalyse._max_above_floor]
  exact ⟨h, parser_meter_maxima_floor rawC2 metricsC2 h⟩

/-- C3: when the `lufs_normalise` flow reaches the write stage (not
silent, not compliant-without-force, no disallowed clip risk, not
dry-run) and the output exists without `--overwrite`, the decision is
`Skip("output_exists")`, nothing is written, and the exit code is `0`
(a normal terminal state, not an error). -/
theorem overwrite_blocked_skips (a : LufsNormalise.Args) (pk ff : ℚ)
    (tp : Option ℚ)
    (h1 : ¬((LufsNormalise.evaluate_target ff a.target_lufs a.tolerance).within
      ∧ ¬a.force))
    (h2 : ¬(0 < pk + LufsNormalise.compute_gain_db ff a.target_lufs
      a.min_gain_db a.max_gain_db ∧ ¬a.allow_clip))
    (h3 : a.dry_run = false) (h4 : a.overwrite = false) :
    (LufsNormalise.run a (some pk) ff tp true).decision
        = LufsNormalise.ApplyDecision.skip "output_exists" ∧
    (LufsNormalise.run a (some pk) ff tp true).did_write = false ∧
    (LufsNormalise.run a (some pk) ff tp true).rc = 0 := by
  unfold LufsNormalise.run
  dsimp only
  rw [if_neg h1, if_neg h2]
  simp [h3, h4]

/-- Witness for C3: a too-loud file (`-10` LUFS against target `-14`,
gain `-4` dB, no clip risk), not dry-run, output exists, no
`--overwrite`: skipped with exit code 0. -/
theorem overwrite_blocked_skips_witness :
    (LufsNormalise.run ⟨-14, 1/2, -24, 12, -1, false, false, false, false⟩
        (some (-12)) (-10) none true).decision
      = LufsNormalise.ApplyDecision.skip "output_exists" ∧
    (LufsNormalise.run ⟨-14, 1/2, -24, 12, -1, false, false, false, false⟩
        (some (-12)) (-10) none true).did_write = false ∧
    (LufsNormalise.run ⟨-14, 1/2, -24, 12, -1, false, false, false, false⟩
        (some (-12)) (-10) none true).rc = 0 :=
  overwrite_blocked_skips ⟨-14, 1/2, -24, 12, -1, false, false, false, false⟩
    (-12) (-10) none
    (by norm_num [LufsNormalise.evaluate_target, abs_le])
    (by norm_num [LufsNormalise.compute_gain_db, LufsNormalise.clamp])
    rfl rfl

/-- C4 counterexample: a compliant, unforced input (`measured = target
= -14`) with `dry_run = false`, `output_exists = false` and no clip
risk (predicted peak `-10 ≤ 0`) does not produce `Write` — it skips as
within tolerance — refuting "non-dry-run with output_exists=false and
no clip risk always produces Write". -/
theorem nondry_not_always_write_cex :
    (LufsNormalise.run ⟨-14, 1/2, -24, 12, -1, false, false, false, false⟩
        (some (-10)) (-14) none false).decision
      = LufsNormalise.ApplyDecision.skip "within_tolerance" ∧
    (LufsNormalise.run ⟨-14, 1/2, -24, 12, -1, false, false, false, false⟩
        (some (-10)) (-14) none false).decision
      ≠ LufsNormalise.ApplyDecision.write ∧
    (-10 : ℚ) + LufsNormalise.compute_gain_db (-14) (-14) (-24) 12 ≤ 0 := by
  refine ⟨?_, ?_, ?_⟩
  · norm_num [LufsNormalise.run, LufsNormalise.evaluate_target, abs_le]
  · norm_num [LufsNormalise.run, LufsNormalise.evaluate_target, abs_le]
    decide
  · norm_num [LufsNormalise.compute_gain_db, LufsNormalise.clamp]

/-- C4 (amended): a dry-run invocation never yields `Write` and never
writes, for every input; and a non-dry-run invocation with
`output_exists = false` that reaches the write stage (non-silent peak,
not compliant-without-force, no disallowed clip risk) always yields
`Write`. -/
theorem dry_run_and_write_decision :
    (∀ (a : LufsNormalise.Args) (pk : Option ℚ) (ff : ℚ) (tp : Option ℚ)
        (ex : Bool), a.dry_run = true →
      (LufsNormalise.run a pk ff tp ex).decision
          ≠ LufsNormalise.ApplyDecision.write ∧
      (LufsNormalise.run a pk ff tp ex).did_write = false) ∧
    (∀ (a : LufsNormalise.Args) (pk ff : ℚ) (tp : Option ℚ),
      a.dry_run = false →
      ¬((LufsNormalise.evaluate_target ff a.target_lufs a.tolerance).within
        ∧ ¬a.force) →
      ¬(0 < pk + LufsNormalise.compute_gain_db ff a.target_lufs
        a.min_gain_db a.max_gain_db ∧ ¬a.allow_clip) →
      (LufsNormalise.run a (some pk) ff tp false).decision
          = LufsNormalise.ApplyDecision.write ∧
      (LufsNormalise.run a (some pk) ff tp false).did_write = true) := by
  constructor
  · intro a pk ff tp ex h
    cases pk with
    | none => simp [LufsNormalise.run]
    | some pk =>
      unfold LufsNormalise.run
      dsimp only
      split_ifs with hw hc <;> simp_all
  · intro a pk ff tp h0 h1 h2
    unfold LufsNormalise.run
    dsimp only
    rw [if_neg h1, if_neg h2]
    simp [h0]

/-- Witness for C4 (amended): with `dry_run = true` the decision is not
`Write`; the same too-loud input with `dry_run = false` and no existing
output is written. -/
theorem dry_run_and_write_decision_witness :
    (LufsNormalise.run ⟨-14, 1/2, -24, 12, -1, false, false, false, true⟩
        (some (-12)) (-10) none true).decision
      ≠ LufsNormalise.ApplyDecision.write ∧
    (LufsNormalise.run ⟨-14, 1/2, -24, 12, -1, false, false, false, false⟩
        (some (-12)) (-10) none false).decision
      = LufsNormalise.ApplyDecision.write :=
  ⟨(dry_run_and_write_decision.1
      ⟨-14, 1/2, -24, 12, -1, false, false, false, true⟩
      (some (-12)) (-10) none true rfl).1,
   (dry_run_and_write_decision.2
      ⟨-14, 1/2, -24, 12, -1, false, false, false, false⟩
      (-12) (-10) none rfl
      (by norm_num [LufsNormalise.evaluate_target, abs_le])
      (by norm_num [LufsNormalise.compute_gain_db, LufsNormalise.clamp])).1⟩

/-- Flags of the failing C1 invocation: `--apply --target_lufs -14`
with the default tolerance, gain bounds, and safety flags. -/
def argsC1 : LufsAnalyse.ApplyArgs :=
  { target_lufs := -14
    tolerance := 1/2
    min_gain_db := -24
    max_gain_db := 12
    true_peak_limit := -1
    applyFlag := true
    force_apply := false
    allow_clip := false
    dry_run := false }

/-- C1: evaluation of `lufs_analyse.apply_target_gain_if_requested` at
a silent measurement (`integrated_lufs = -inf`, as pyloudnorm reports
for fully gated audio) with a non-zero sample peak (`-60` dBFS): the
code does not skip with a silence verdict — it labels the file
"Too quiet", suggests an infinite gain, clamps the applied gain to
`max_gain_db = +12` dB, and writes the output file with exit code 0,
contradicting the specified `Skip("silence")` short-circuit. -/
theorem silent_measurement_apply_writes :
    (LufsAnalyse.apply_target_gain_if_requested argsC1 XRat.negInf
        (some (-60)) none).wrote_file = true ∧
    (LufsAnalyse.apply_target_gain_if_requested argsC1 XRat.negInf
        (some (-60)) none).apply_gain_db = some 12 ∧
    (LufsAnalyse.apply_target_gain_if_requested argsC1 XRat.negInf
        (some (-60)) none).suggested_gain_db = XRat.posInf ∧
    (LufsAnalyse.apply_target_gain_if_requested argsC1 XRat.negInf
        (some (-60)) none).target_status = TargetStatus.tooQuiet ∧
    (LufsAnalyse.apply_target_gain_if_requested argsC1 XRat.negInf
        (some (-60)) none).rc = 0 := by
  norm_num [LufsAnalyse.apply_target_gain_if_requested, argsC1,
    XRat.subQ, XRat.absX, XRat.leQ, XRat.gtQ, XRat.neg,
    LufsAnalyse.compute_gain_db_x]
